import Mathlib

/-!
Verification of the phockup media-sorting engine against its specification.

The development shallowly embeds the Python sources:
  * `phockup/date.py`   — the date resolver (`Date.from_exif` and helpers),
  * `phockup/exif.py`   — the metadata-provider boundary (`Exif.metadata`),
  * `phockup/phockup.py`— the path planner, collision resolver / transfer
    engine and directory walker (class `Phockup`).

Python's filesystem, the `exiftool` subprocess, the `dateutil` parser and
the SHA-256 digest are external boundaries; they are modelled by an explicit
filesystem state `FS` and oracle functions carried in `Env`.  Machine-level
exceptions that the Python code can raise (`TypeError`, `AttributeError`,
`FileNotFoundError`, `json.JSONDecodeError`, `IndexError`) are modelled with
`Except PyErr`.  Path separator is `"/"` (the POSIX `os.path.sep`).
-/

set_option maxRecDepth 4000

/-- Python exception classes that the embedded code can raise. -/
inductive PyErr where
  | typeError
  | attributeError
  | fileNotFoundError
  | jsonDecodeError
  | indexError
  deriving DecidableEq, Repr

instance {ε α : Type} [DecidableEq ε] [DecidableEq α] : DecidableEq (Except ε α)
  | .error e1, .error e2 =>
    match decEq e1 e2 with
    | isTrue h => isTrue (by rw [h])
    | isFalse h => isFalse (by intro hh; cases hh; exact h rfl)
  | .error _, .ok _ => isFalse (by intro h; cases h)
  | .ok _, .error _ => isFalse (by intro h; cases h)
  | .ok a, .ok b =>
    match decEq a b with
    | isTrue h => isTrue (by rw [h])
    | isFalse h => isFalse (by intro hh; cases hh; exact h rfl)

/-! ## `os.path` helpers (POSIX semantics, separator `/`) -/

/-- Index (in the char list) just past the last `/`, i.e. where the basename
starts.  `os.path.basename` returns everything after the final separator. -/
def basenameChars : List Char → List Char :=
  fun cs => (cs.foldl (fun acc c => if c = '/' then [] else acc ++ [c]) [])

/-- `os.path.basename`. -/
def os_path_basename (s : String) : String :=
  ⟨basenameChars s.data⟩

/-- Split a char list at the index of its last `.`, provided some character
strictly before that dot (within the given list) is not a dot; this is the
CPython `splitext` rule that leading dots of a basename never start an
extension.  Returns `(root, ext)` for the basename-part only. -/
def splitextBase (cs : List Char) : List Char × List Char :=
  let n := cs.length
  let dotIdx := (List.range n).foldl
    (fun acc i => if cs.getD i ' ' = '.' then some i else acc) none
  match dotIdx with
  | none => (cs, [])
  | some i =>
    -- extension only if some char before index i is not a dot
    if (List.range i).any (fun j => cs.getD j ' ' ≠ '.') then
      (cs.take i, cs.drop i)
    else
      (cs, [])

/-- `os.path.splitext`: the extension is computed on the part after the last
separator; everything before the basename is kept in the root. -/
def os_path_splitext (s : String) : String × String :=
  let cs := s.data
  let base := basenameChars cs
  let dir := cs.take (cs.length - base.length)
  let (root, ext) := splitextBase base
  (⟨dir ++ root⟩, ⟨ext⟩)

/-- `str.endswith`. -/
def str_endswith (s suffix : String) : Bool :=
  suffix.data.isSuffixOf s.data

/-- `str.startswith`. -/
def str_startswith (s pre : String) : Bool :=
  pre.data.isPrefixOf s.data

example : os_path_basename "Bar/Foo.jpg" = "Foo.jpg" := by decide
example : os_path_splitext "out/u/f.txt" = ("out/u/f", ".txt") := by decide
example : os_path_splitext "a/.bashrc" = ("a/.bashrc", "") := by decide
example : os_path_splitext "photo" = ("photo", "") := by decide
example : str_endswith "a/b.xmp" ".xmp" = true := by decide

/-! ## Datetimes (`datetime.datetime`) -/

/-- A Python `datetime.datetime`: calendar fields with microseconds and an
optional fixed UTC offset in seconds (`tzinfo`). -/
structure DateTime where
  year : Nat
  month : Nat
  day : Nat
  hour : Nat
  minute : Nat
  second : Nat
  microsecond : Nat
  tz : Option Int
  deriving DecidableEq, Repr

/-- Number of days of a month in the proleptic Gregorian calendar. -/
def daysInMonth (y m : Nat) : Nat :=
  if m = 2 then
    if y % 4 = 0 ∧ (y % 100 ≠ 0 ∨ y % 400 = 0) then 29 else 28
  else if m = 4 ∨ m = 6 ∨ m = 9 ∨ m = 11 then 30
  else 31

/-- The validation performed by the `datetime.datetime` constructor:
`MINYEAR ≤ year ≤ MAXYEAR`, month, day-of-month, and time-field ranges.
A violation raises `ValueError` in Python; here the result is `none`. -/
def mkDatetime (y m d h mi s us : Nat) (tz : Option Int) : Option DateTime :=
  if 1 ≤ y ∧ y ≤ 9999 ∧ 1 ≤ m ∧ m ≤ 12 ∧ 1 ≤ d ∧ d ≤ daysInMonth y m ∧
     h ≤ 23 ∧ mi ≤ 59 ∧ s ≤ 59 ∧ us ≤ 999999 then
    some ⟨y, m, d, h, mi, s, us, tz⟩
  else
    none

/-- `datetime.date()`: keep only the calendar date (used before formatting
the directory path, so time-of-day never influences directories). -/
def DateTime.dateOnly (dt : DateTime) : DateTime :=
  ⟨dt.year, dt.month, dt.day, 0, 0, 0, 0, none⟩

/-- Left-pad the decimal representation of `n` with zeros to width `w`. -/
def padNum (w n : Nat) : String :=
  let r := Nat.repr n
  ⟨List.replicate (w - r.length) '0' ++ r.data⟩

/-- `datetime.strftime` restricted to the directives the program's format
strings use (`%Y %m %d %H %M %S %%`); any other character is emitted
verbatim, and an unknown directive is emitted as itself. -/
def strftimeChars (dt : DateTime) : List Char → List Char
  | [] => []
  | '%' :: c :: rest =>
    (if c = 'Y' then (padNum 4 dt.year).data
     else if c = 'm' then (padNum 2 dt.month).data
     else if c = 'd' then (padNum 2 dt.day).data
     else if c = 'H' then (padNum 2 dt.hour).data
     else if c = 'M' then (padNum 2 dt.minute).data
     else if c = 'S' then (padNum 2 dt.second).data
     else if c = '%' then ['%']
     else ['%', c]) ++ strftimeChars dt rest
  | c :: rest => c :: strftimeChars dt rest

/-- `dt.strftime(fmt)`. -/
def strftime (dt : DateTime) (fmt : String) : String :=
  ⟨strftimeChars dt fmt.data⟩

example :
    strftime ⟨2017, 1, 1, 1, 1, 1, 0, none⟩ "%Y%m%d-%H%M%S" = "20170101-010101" := by
  decide

example : strftime (DateTime.dateOnly ⟨2017, 1, 1, 1, 1, 1, 0, none⟩) "%Y/%m/%d" =
    "2017/01/01" := by decide

/-! ## Metadata provider boundary (`phockup/exif.py`) -/

/-- A value of a metadata field as decoded from the tool's JSON output. -/
inductive ExifVal where
  | str (s : String)
  | int (n : Int)
  deriving DecidableEq, Repr

/-- A decoded JSON metadata record: field name to value. -/
abbrev ExifRecord := List (String × ExifVal)

/-- Python `dict` lookup on an association list. -/
def dictGet {α : Type} (l : List (String × α)) (k : String) : Option α :=
  (l.find? (fun p => p.1 = k)).map (fun p => p.2)

/-- The possible outcomes of the `exiftool` subprocess invocation performed
by `Exif.metadata`: a non-zero exit status (`CalledProcessError`), a byte
stream that fails UTF-8 decoding (`UnicodeDecodeError`), or decoded output
handed to `json.loads` — which is either malformed or parses to a JSON
array of objects. -/
inductive ExifInvoke where
  | procError
  | decodeError
  | outputMalformed
  | outputParsed (objs : List ExifRecord)
  deriving Repr

/-- `Exif.metadata` (exif.py lines 16-42): the `try` block catches exactly
`CalledProcessError` and `UnicodeDecodeError`, returning `{}`.  A
`json.loads` failure (`json.JSONDecodeError`, a `ValueError`) and the
`list.pop()` on an empty array (`IndexError`) are not caught and
propagate to the caller. -/
def Exif.metadata (r : ExifInvoke) : Except PyErr ExifRecord :=
  match r with
  | .procError => .ok []
  | .decodeError => .ok []
  | .outputMalformed => .error .jsonDecodeError
  | .outputParsed objs =>
    match objs.getLast? with
    | none => .error .indexError
    | some o => .ok o

/-! ## Environment: external boundaries as oracles -/

/-- External boundaries of the program, fixed for a run: the outcome of the
`exiftool` subprocess per input path, `os.path.getmtime` converted by
`datetime.fromtimestamp`, the `dateutil.parser.parse` fallback (`none`
models its `ValueError`), and the SHA-256 hex digest of a file content. -/
structure Env where
  exifInvoke : String → ExifInvoke
  mtime : String → DateTime
  dateutil : String → Option DateTime
  sha256 : String → String

/-! ## Date-string parsing (`Date.from_datestring`, date.py lines 74-127)

`datetime.strptime` is embedded one fixed format string at a time, following
CPython's `_strptime` matching rules: `%Y` is exactly four digits, the
two-digit fields accept one or two digits within their ranges, `%f` is one
to six digits, `%z` is `Z` or a signed `HH:MM`/`HHMM` offset, and the whole
string must be consumed. -/

/-- Parse exactly `n` leading digits into a number. -/
def parseFixedDigits : Nat → Nat → List Char → Option (Nat × List Char)
  | 0, acc, cs => some (acc, cs)
  | n + 1, acc, c :: cs =>
    if c.isDigit then parseFixedDigits n (acc * 10 + (c.toNat - 48)) cs else none
  | _ + 1, _, [] => none

/-- CPython's pattern for a two-digit field: greedily take two digits when
their value lies in `lo2..hi2`, else one digit in `lo1..hi1`. -/
def parse2or1 (lo2 hi2 lo1 hi1 : Nat) : List Char → Option (Nat × List Char)
  | c1 :: c2 :: cs =>
    if c1.isDigit ∧ c2.isDigit ∧
        lo2 ≤ (c1.toNat - 48) * 10 + (c2.toNat - 48) ∧
        (c1.toNat - 48) * 10 + (c2.toNat - 48) ≤ hi2 then
      some ((c1.toNat - 48) * 10 + (c2.toNat - 48), cs)
    else if c1.isDigit ∧ lo1 ≤ c1.toNat - 48 ∧ c1.toNat - 48 ≤ hi1 then
      some (c1.toNat - 48, c2 :: cs)
    else none
  | [c1] =>
    if c1.isDigit ∧ lo1 ≤ c1.toNat - 48 ∧ c1.toNat - 48 ≤ hi1 then
      some (c1.toNat - 48, [])
    else none
  | [] => none

/-- Consume one expected literal character. -/
def expectChar (c : Char) : List Char → Option (List Char)
  | c2 :: cs => if c2 = c then some cs else none
  | [] => none

/-- `%Y sep %m sep %d ' ' %H ':' %M ':' %S` with the given date separator. -/
def parseYmdHms (sep : Char) (cs : List Char) : Option (Nat × Nat × Nat × Nat × Nat × Nat × List Char) := do
  let (y, r) ← parseFixedDigits 4 0 cs
  let r ← expectChar sep r
  let (mo, r) ← parse2or1 1 12 1 9 r
  let r ← expectChar sep r
  let (d, r) ← parse2or1 1 31 1 9 r
  let r ← expectChar ' ' r
  let (h, r) ← parse2or1 0 23 0 9 r
  let r ← expectChar ':' r
  let (mi, r) ← parse2or1 0 59 0 9 r
  let r ← expectChar ':' r
  let (s, r) ← parse2or1 0 59 0 9 r
  some (y, mo, d, h, mi, s, r)

/-- `%f`: one to six digits, scaled to microseconds. -/
def parseFrac (cs : List Char) : Option (Nat × List Char) :=
  let ds := (cs.takeWhile Char.isDigit).take 6
  if ds.length = 0 then none
  else
    let v := ds.foldl (fun a c => a * 10 + (c.toNat - 48)) 0
    some (v * 10 ^ (6 - ds.length), cs.drop ds.length)

/-- `%z`: `Z`, or a sign followed by `HH`, an optional `:`, and `MM`;
the resulting offset in seconds. -/
def parseTzOffset (cs : List Char) : Option (Int × List Char) :=
  match cs with
  | 'Z' :: r => some (0, r)
  | c :: r =>
    if c = '+' ∨ c = '-' then do
      let (h, r1) ← parseFixedDigits 2 0 r
      let r1 := match r1 with
        | ':' :: r2 => r2
        | _ => r1
      let (m, r2) ← parseFixedDigits 2 0 r1
      if h ≤ 23 ∧ m ≤ 59 then
        let total : Int := (h * 3600 + m * 60 : Nat)
        some (if c = '-' then -total else total, r2)
      else none
    else none
  | [] => none

/-- `datetime.strptime(s, "%Y:%m:%d %H:%M:%S")`. -/
def strptimeColon (s : String) : Option DateTime := do
  let (y, mo, d, h, mi, sec, r) ← parseYmdHms ':' s.data
  if r = [] then mkDatetime y mo d h mi sec 0 none else none

/-- `datetime.strptime(s, "%Y:%m:%d %H:%M:%S.%f")`. -/
def strptimeColonFrac (s : String) : Option DateTime := do
  let (y, mo, d, h, mi, sec, r) ← parseYmdHms ':' s.data
  let r ← expectChar '.' r
  let (us, r) ← parseFrac r
  if r = [] then mkDatetime y mo d h mi sec us none else none

/-- `datetime.strptime(s, "%Y:%m:%d %H:%M:%S.%f%z")`. -/
def strptimeColonFracTz (s : String) : Option DateTime := do
  let (y, mo, d, h, mi, sec, r) ← parseYmdHms ':' s.data
  let r ← expectChar '.' r
  let (us, r) ← parseFrac r
  let (tz, r) ← parseTzOffset r
  if r = [] then mkDatetime y mo d h mi sec us (some tz) else none

/-- `datetime.strptime(s, "%Y-%m-%d %H:%M:%S")`. -/
def strptimeDash (s : String) : Option DateTime := do
  let (y, mo, d, h, mi, sec, r) ← parseYmdHms '-' s.data
  if r = [] then mkDatetime y mo d h mi sec 0 none else none

/-- `Date.from_datestring` (date.py lines 74-127): try the four fixed
formats in order; when all fail, fall back to `dateutil.parser.parse`
(the `env.dateutil` oracle), whose `ValueError` yields `None`.  The
python-3.6 timezone workaround is dead code on the modelled interpreter
version and is omitted. -/
def Date.from_datestring (env : Env) (datestr : String) : Option DateTime :=
  match strptimeColon datestr with
  | some dt => some dt
  | none =>
    match strptimeColonFrac datestr with
    | some dt => some dt
    | none =>
      match strptimeColonFracTz datestr with
      | some dt => some dt
      | none =>
        match strptimeDash datestr with
        | some dt => some dt
        | none => env.dateutil datestr

/-! ## Filename-based extraction (`Date.from_filename`, date.py lines 129-154) -/

/-- A compiled date-extraction regex (`re.Pattern`) at the interface the
resolver uses: `regex.search(basename)` followed by
`groupdict(default='0')` — `some groups` on a match (group name to matched
text, `none` for an unmatched optional group), `none` when the pattern does
not occur. -/
abbrev DateRegex := String → Option (List (String × Option String))

/-- Parse exactly `n` leading digit characters, keeping them as text. -/
def parseNDigitsStr (n : Nat) (cs : List Char) : Option (String × List Char) :=
  let ds := cs.take n
  if ds.length = n ∧ ds.all Char.isDigit then some (⟨ds⟩, cs.drop n) else none

/-- Match the tail of the default pattern starting at a `[_-]` separator:
`[_-]yyyymmdd[_-]?hhmmss` (the optional separator is consumed greedily,
exactly as the regex engine does). -/
def defaultRegexAt : List Char → Option (String × String × String × String × String × String)
  | [] => none
  | c :: rest =>
    if c = '_' ∨ c = '-' then do
      let (y, r1) ← parseNDigitsStr 4 rest
      let (mo, r2) ← parseNDigitsStr 2 r1
      let (d, r3) ← parseNDigitsStr 2 r2
      let r3 := match r3 with
        | c2 :: r4 => if c2 = '_' ∨ c2 = '-' then r4 else c2 :: r4
        | [] => []
      let (h, r5) ← parseNDigitsStr 2 r3
      let (mi, r6) ← parseNDigitsStr 2 r5
      let (s, _) ← parseNDigitsStr 2 r6
      some (y, mo, d, h, mi, s)
    else none

/-- The default pattern
`.*[_-](?P<year>\d4)(?P<month>\d2)(?P<day>\d2)[_-]?(?P<hour>\d2)(?P<minute>\d2)(?P<second>\d2)`
under `re.search`: the greedy leading `.*` selects the rightmost separator
position from which the dated tail matches. -/
def default_regex (s : String) : Option (List (String × Option String)) :=
  let cs := s.data
  (List.range cs.length).reverse.foldl
    (fun acc k =>
      match acc with
      | some r => some r
      | none =>
        (defaultRegexAt (cs.drop k)).map
          (fun g => [("year", some g.1), ("month", some g.2.1),
                     ("day", some g.2.2.1), ("hour", some g.2.2.2.1),
                     ("minute", some g.2.2.2.2.1), ("second", some g.2.2.2.2.2)]))
    none

/-- Python `int(s)` on the text of a capture group: decimal digits only;
anything else raises `ValueError` (modelled as `none`). -/
def pyInt (s : String) : Option Nat :=
  if s.data ≠ [] ∧ s.data.all Char.isDigit then
    some (s.data.foldl (fun a c => a * 10 + (c.toNat - 48)) 0)
  else none

/-- `groupdict(default='0')` followed by the `int` conversion of every
group value; a failing conversion is the `ValueError` caught by
`from_filename`. -/
def intGroups (gs : List (String × Option String)) : Option (List (String × Nat)) :=
  gs.foldr
    (fun p acc => do
      let v ← pyInt (p.2.getD "0")
      let r ← acc
      some ((p.1, v) :: r))
    (some [])

/-- `Date.build` (date.py lines 32-41): the `datetime` constructor from the
group dictionary; `year`, `month`, `day` are required (`KeyError` otherwise),
the time fields default to 0, and constructor validation applies. -/
def Date.build (g : List (String × Nat)) : Option DateTime := do
  let y ← dictGet g "year"
  let mo ← dictGet g "month"
  let d ← dictGet g "day"
  mkDatetime y mo d ((dictGet g "hour").getD 0) ((dictGet g "minute").getD 0)
    ((dictGet g "second").getD 0) ((dictGet g "microsecond").getD 0) none

/-- `Date.from_timestamp`: `datetime.fromtimestamp(os.path.getmtime(f))`,
read from the environment oracle. -/
def Date.from_timestamp (env : Env) (filename : String) : DateTime :=
  env.mtime filename

/-- `Date.from_filename` (date.py lines 129-151): search the basename with
the user regex (or the default pattern), convert the group dictionary to
integers and build a datetime (`KeyError`/`ValueError` give `None`); on
failure fall back to the modification time when `timestamp` is set. -/
def Date.from_filename (env : Env) (filename : String) (user_regex : Option DateRegex)
    (timestamp : Bool) : Option DateTime :=
  let regexFn := user_regex.getD default_regex
  let date : Option DateTime :=
    match regexFn (os_path_basename filename) with
    | some gs =>
      match intGroups gs with
      | some g => Date.build g
      | none => none
    | none => none
  match date with
  | some d => some d
  | none => if timestamp then some (Date.from_timestamp env filename) else none

/-- `Date.from_exif` (date.py lines 43-72): pick the first present field of
the priority list (or of the whitespace-split `date_field` option), parse
its value when it is a truthy string not starting with `"0000"`, and
otherwise fall through to filename-based extraction when a filename is
available. -/
def Date.date_keys (date_field : Option String) : List String :=
  match date_field with
  | some df => (df.split Char.isWhitespace).filter (fun s => s ≠ "")
  | none => ["SubSecCreateDate", "SubSecDateTimeOriginal", "CreateDate", "DateTimeOriginal"]

/-- The scan `for key in keys: if key in exif: datestr = exif[key]; break`
of `from_exif`: the value of the first listed field present in the
record. -/
def Date.first_value (exif : ExifRecord) : List String → Option ExifVal
  | [] => none
  | k :: ks =>
    match dictGet exif k with
    | some v => some v
    | none => Date.first_value exif ks

def Date.from_exif (env : Env) (filename : Option String) (exif : ExifRecord)
    (timestamp : Bool) (user_regex : Option DateRegex) (date_field : Option String) :
    Option DateTime :=
  let datestr : Option ExifVal := Date.first_value exif (Date.date_keys date_field)
  let parsed_date : Option DateTime :=
    match datestr with
    | some (.str s) =>
      if s ≠ "" ∧ ¬ str_startswith s "0000" then Date.from_datestring env s else none
    | _ => none
  match parsed_date with
  | some d => some d
  | none =>
    match filename with
    | some f => Date.from_filename env f user_regex timestamp
    | none => none

/-! ## Filesystem state

The filesystem the engine reads and mutates: regular files (path to
content) and the set of directories created so far.  Input files live here,
and transfers write here. -/

structure FS where
  files : List (String × String)
  dirs : List String
  deriving DecidableEq, Repr

/-- `os.path.isfile`. -/
def FS.isfile (σ : FS) (p : String) : Bool :=
  (σ.files.find? (fun q => q.1 = p)).isSome

/-- Content of a file, when present. -/
def FS.content (σ : FS) (p : String) : Option String :=
  dictGet σ.files p

/-- Create or overwrite a file. -/
def FS.write (σ : FS) (p c : String) : FS :=
  if σ.isfile p then ⟨σ.files.map (fun q => if q.1 = p then (p, c) else q), σ.dirs⟩
  else ⟨σ.files ++ [(p, c)], σ.dirs⟩

/-- Delete a file. -/
def FS.remove (σ : FS) (p : String) : FS :=
  ⟨σ.files.filter (fun q => ¬ q.1 = p), σ.dirs⟩

/-- `shutil.move`: `FileNotFoundError` when the source is missing. -/
def shutil_move (σ : FS) (src tgt : String) : Except PyErr FS :=
  match σ.content src with
  | none => .error .fileNotFoundError
  | some c => .ok ((σ.remove src).write tgt c)

/-- `shutil.copy2`: `FileNotFoundError` when the source is missing. -/
def shutil_copy2 (σ : FS) (src tgt : String) : Except PyErr FS :=
  match σ.content src with
  | none => .error .fileNotFoundError
  | some c => .ok (σ.write tgt c)

/-- `os.link`: a hard link shares content; `FileNotFoundError` when the
source is missing. -/
def os_link (σ : FS) (src tgt : String) : Except PyErr FS :=
  match σ.content src with
  | none => .error .fileNotFoundError
  | some c => .ok (σ.write tgt c)

/-! ## Exclusion patterns (`re` and `fnmatch` boundaries) -/

/-- The fragment of Python regular expressions that exclusion patterns are
built from: literal characters (possibly written escaped, like `\.`) and
the any-character class `.`. -/
inductive RTok where
  | lit (c : Char)
  | dot
  deriving DecidableEq, Repr

/-- One compiled exclusion regex. -/
abbrev PyRegex := List RTok

/-- Whether a token matches one character (`.` matches all but newline). -/
def rtokMatches (t : RTok) (c : Char) : Bool :=
  match t with
  | .lit c2 => c = c2
  | .dot => c ≠ '\n'

/-- Match the whole pattern against a prefix of the character list. -/
def regexMatchChars : PyRegex → List Char → Bool
  | [], _ => true
  | _ :: _, [] => false
  | t :: ts, c :: cs => rtokMatches t c && regexMatchChars ts cs

/-- `re.match(r, s)`: the pattern must match at the start of `s`. -/
def re_match (r : PyRegex) (s : String) : Bool :=
  regexMatchChars r s.data

/-- `re.search(r, s)`: the pattern may match at any position of `s`. -/
def re_search (r : PyRegex) (s : String) : Bool :=
  (List.range (s.data.length + 1)).any (fun k => regexMatchChars r (s.data.drop k))

/-- `fnmatch` glob matching on characters (`*`, `?` and literals; the
patterns the program is configured with use no bracket classes).  Every
step shortens `pattern-length + text-length`, so the structural fuel in
the first argument makes the recursion total without changing any value
reached with fuel above that sum. -/
def globMatchAux : Nat → List Char → List Char → Bool
  | 0, _, _ => false
  | _ + 1, [], [] => true
  | _ + 1, [], _ :: _ => false
  | fuel + 1, '*' :: ps, [] => globMatchAux fuel ps []
  | fuel + 1, '*' :: ps, c :: cs =>
    globMatchAux fuel ps (c :: cs) || globMatchAux fuel ('*' :: ps) cs
  | _ + 1, '?' :: _, [] => false
  | fuel + 1, '?' :: ps, _ :: cs => globMatchAux fuel ps cs
  | _ + 1, _ :: _, [] => false
  | fuel + 1, p :: ps, c :: cs => p = c && globMatchAux fuel ps cs

/-- `fnmatch.fnmatchcase(name, pattern)`: case-sensitive glob match. -/
def fnmatchcase (name pattern : String) : Bool :=
  globMatchAux (pattern.data.length + name.data.length + 1) pattern.data name.data

example : fnmatchcase "a.txt" "*.txt" = true := by decide
example : fnmatchcase "a.txt" "*.TXT" = false := by decide
example : re_match [.lit '.', .lit 'D', .lit 'S'] ".DS_Store" = true := by decide
example : re_match [.lit '.', .lit 'D', .lit 'S'] "x.DS_Store" = false := by decide
example : re_search [.lit '.', .lit 'D', .lit 'S'] "x.DS_Store" = true := by decide

/-! ## The engine (`phockup/phockup.py`, class `Phockup`) -/

/-- The run configuration: the keyword arguments accepted by
`Phockup.__init__` (phockup.py lines 31-46).  `rename = none` is the
Python default `False`; `exclude_file = some lines` holds the lines of the
configured exclusion file with their trailing newline already stripped
(`pattern[:-1]` in the source). -/
structure Config where
  output_dir : String
  dir_format : String
  move : Bool
  link : Bool
  date_regex : Option DateRegex
  timestamp : Bool
  date_field : Option String
  dry_run : Bool
  default_dir_name : String
  exclude_regex : List PyRegex
  exclude_unix : List String
  exclude_file : Option (List String)
  rename : Option String

/-- `Phockup.is_image_or_video` (phockup.py lines 19-29):
`re.match('^(image/.+|video/.+|application/vnd.adobe.photoshop)$', m)`;
MIME strings contain no newline, so this is: a nonempty suffix after
`image/` or `video/`, or the exact Photoshop type. -/
def Phockup.is_image_or_video (mimetype : String) : Bool :=
  (str_startswith mimetype "image/" && mimetype.length > 6) ||
  (str_startswith mimetype "video/" && mimetype.length > 6) ||
  mimetype = "application/vnd.adobe.photoshop"

example : Phockup.is_image_or_video "image/jpeg" = true := by decide
example : Phockup.is_image_or_video "video/mp4" = true := by decide
example : Phockup.is_image_or_video "foo/bar" = false := by decide
example : Phockup.is_image_or_video "image/" = false := by decide

/-- `Phockup.checksum` (phockup.py lines 149-159): SHA-256 over the whole
file content, streamed in blocks; `open` raises `FileNotFoundError` when
the file is missing.  The digest function is the `env.sha256` oracle. -/
def Phockup.checksum (env : Env) (σ : FS) (filename : String) : Except PyErr String :=
  match σ.content filename with
  | none => .error .fileNotFoundError
  | some c => .ok (env.sha256 c)

/-- `Phockup.get_output_dir` (phockup.py lines 161-183): the target
directory is `output_dir/default_dir_name` without a date and
`output_dir/strftime(dir_format)` of the date portion otherwise; directory
creation goes through `self.dry` (suppressed on dry runs) and an `EEXIST`
error is caught. -/
def Phockup.get_output_dir (cfg : Config) (σ : FS) (date : Option DateTime) : String × FS :=
  let path :=
    match date with
    | none => [cfg.output_dir, cfg.default_dir_name]
    | some d => [cfg.output_dir, strftime (DateTime.dateOnly d) cfg.dir_format]
  let fullpath := String.intercalate "/" path
  if cfg.dry_run then (fullpath, σ)
  else if σ.dirs.contains fullpath then (fullpath, σ)
  else (fullpath, ⟨σ.files, σ.dirs ++ [fullpath]⟩)

/-- Insert into a sorted list (helper for `list.sort()`). -/
def insertSorted (x : String) : List String → List String
  | [] => [x]
  | y :: ys => if x ≤ y then x :: y :: ys else y :: insertSorted x ys

/-- Python's `files.sort()`: sort filenames lexicographically. -/
def sortStrings (l : List String) : List String :=
  l.foldr insertSorted []

/-- The exclusion decision of `Phockup.walk_directory` (phockup.py lines
120-144), applied per filename: a regex matching via `re.match`, a
case-sensitive `fnmatch` pattern, or a line of the exclusion file skips
the file. -/
def Phockup.file_excluded (cfg : Config) (filename : String) : Bool :=
  cfg.exclude_regex.any (fun regex => re_match regex filename) ||
  cfg.exclude_unix.any (fun pattern => fnmatchcase filename pattern) ||
  (match cfg.exclude_file with
   | some patterns => patterns.any (fun pattern => fnmatchcase filename pattern)
   | none => false)

/-- `Phockup.walk_directory` (phockup.py lines 112-147), with the `os.walk`
traversal represented by its result: the `(root, files)` pairs in visit
order.  Files of each directory are sorted, the excluded ones are dropped,
and the joined paths are handed to `process_file`; this function returns
that list of paths. -/
def Phockup.walk_directory (cfg : Config) (walk : List (String × List String)) : List String :=
  walk.foldr
    (fun rf acc =>
      ((sortStrings rf.2).filter (fun f => ¬ Phockup.file_excluded cfg f)).map
        (fun f => rf.1 ++ "/" ++ f) ++ acc)
    []

/-- The argument shape `Phockup.get_file_name` is written for (see the
repository's `test_phockup.py`): a dict with keys `"date"` and
`"subseconds"`, or Python `None`.  A missing subseconds value is the empty
(falsy) string. -/
structure DateDict where
  date : Option DateTime
  subseconds : String
  deriving DecidableEq, Repr

/-- `Phockup.get_file_name` (phockup.py lines 185-219).  With rename
disabled the original basename is returned.  Otherwise the guard
`if not date and date.get("date") is None` is evaluated: for `date = None`
the conjunction short-circuit evaluates `None.get`, an `AttributeError`;
for a (truthy, two-key) dict the guard is `False` and the code falls
through to `date["date"].strftime(...)`, an `AttributeError` whenever the
stored date is `None`.  On success the rename format is applied, truthy
subseconds are appended, and the original extension is restored. -/
def Phockup.get_file_name (cfg : Config) (original_filename : String)
    (date : Option DateDict) : Except PyErr String :=
  match cfg.rename with
  | none => .ok (os_path_basename original_filename)
  | some fmt =>
    match date with
    | none => .error .attributeError
    | some d =>
      match d.date with
      | none => .error .attributeError
      | some dt =>
        let new_filename := strftime dt fmt
        let new_filename :=
          if d.subseconds ≠ "" then new_filename ++ d.subseconds else new_filename
        .ok (new_filename ++ (os_path_splitext original_filename).2)

/-- The `else` branch of `Phockup.get_file_name_and_path` (phockup.py lines
280-284): no usable MIME information sends the file, under its original
basename, to the default-bucket directory. -/
def Phockup.plan_default (cfg : Config) (σ : FS) (filename : String) :
    String × String × String × FS :=
  let (output, σ1) := Phockup.get_output_dir cfg σ none
  let target_file_name := os_path_basename filename
  (output, target_file_name, String.intercalate "/" [output, target_file_name], σ1)

/-- `Phockup.get_file_name_and_path` (phockup.py lines 269-286).  When the
metadata record is non-empty, has a `MIMEType` field and
`is_image_or_video` accepts it, the code evaluates
`date = Date(filename).from_exif(...)` — which (date.py) returns a
`datetime` or `None` — and then subscripts it as `date["date"]`: a
`TypeError` on either value.  A non-string `MIMEType` already raises
`TypeError` inside `re.match`.  All other shapes take the default-bucket
branch. -/
def Phockup.get_file_name_and_path (cfg : Config) (env : Env) (σ : FS) (filename : String) :
    Except PyErr (String × String × String × FS) :=
  match Exif.metadata (env.exifInvoke filename) with
  | .error e => .error e
  | .ok exif_data =>
  match dictGet exif_data "MIMEType" with
  | some (.str mime) =>
    if Phockup.is_image_or_video mime then
      let _date := Date.from_exif env (some filename) exif_data cfg.timestamp
        cfg.date_regex cfg.date_field
      .error .typeError
    else
      .ok (Phockup.plan_default cfg σ filename)
  | some (.int _) => .error .typeError
  | none => .ok (Phockup.plan_default cfg σ filename)

/-! ## Collision resolver / transfer engine -/

/-- The terminal states of processing one file: sidecars are skipped by the
main loop, an equal-hash collision is a duplicate skip, a performed (or
dry-planned) transfer carries the final target and the sidecar transfers,
a vanished source is skipped, and `fuelOut` marks exhaustion of the fuel
bound on the (in Python unbounded) suffix-search loop. -/
inductive Outcome where
  | skippedXmp
  | duplicate (target : String)
  | transferred (target : String) (xmps : List (String × String))
  | skippedMissing
  | fuelOut
  deriving DecidableEq, Repr

/-- Python `dict` assignment `d[k] = v` on an association list. -/
def dictInsert (l : List (String × String)) (k v : String) : List (String × String) :=
  if (l.find? (fun p => p.1 = k)).isSome then
    l.map (fun p => if p.1 = k then (k, v) else p)
  else l ++ [(k, v)]

/-- The transfer loop `for original, target in xmp_files.items()` of
`Phockup.process_xmp`: each sidecar is sent to `output/target` with the
configured mode through `self.dry`; a raised error stops the iteration and
propagates.  Returns the performed `(source, full-target-path)` pairs. -/
def Phockup.xmp_transfer_list (cfg : Config) (output : String) :
    FS → List (String × String) → Except PyErr (List (String × String) × FS)
  | σ, [] => .ok ([], σ)
  | σ, p :: rest =>
    let xmp_path := String.intercalate "/" [output, p.2]
    let step : Except PyErr FS :=
      if cfg.dry_run then .ok σ
      else if cfg.move then shutil_move σ p.1 xmp_path
      else if cfg.link then os_link σ p.1 xmp_path
      else shutil_copy2 σ p.1 xmp_path
    match step with
    | .error e => .error e
    | .ok σ2 =>
      match Phockup.xmp_transfer_list cfg output σ2 rest with
      | .error e => .error e
      | .ok (acc, σ3) => .ok ((p.1, xmp_path) :: acc, σ3)

/-- `Phockup.process_xmp` (phockup.py lines 288-316): look for
`<source>.xmp` and `<source-without-extension>.xmp`, compute their targets
from the primary target basename — appending `-<suffix>` when the suffix
exceeds 1, always ending in the literal `.xmp` — and transfer them with
the configured mode through `self.dry`.  Returns the performed
`(source, full-target-path)` pairs and the new state; the transfer calls
here are not guarded by any `try`. -/
def Phockup.process_xmp (cfg : Config) (σ : FS) (original_filename target_file_name : String)
    (suffix : Nat) (output : String) : Except PyErr (List (String × String) × FS) :=
  let xmp_original_with_ext := original_filename ++ ".xmp"
  let xmp_original_without_ext := (os_path_splitext original_filename).1 ++ ".xmp"
  let sfx := if suffix > 1 then "-" ++ Nat.repr suffix else ""
  let xmp_files : List (String × String) :=
    if σ.isfile xmp_original_with_ext then
      [(xmp_original_with_ext, target_file_name ++ sfx ++ ".xmp")]
    else []
  let xmp_files :=
    if σ.isfile xmp_original_without_ext then
      dictInsert xmp_files xmp_original_without_ext
        ((os_path_splitext target_file_name).1 ++ sfx ++ ".xmp")
    else xmp_files
  Phockup.xmp_transfer_list cfg output σ xmp_files

/-- The tail of a successful transfer branch (phockup.py lines 261-263):
log, process sidecars, and leave the loop. -/
def Phockup.after_transfer (cfg : Config) (σ : FS) (filename target_file_name : String)
    (suffix : Nat) (output target_file : String) : Except PyErr (Outcome × FS) :=
  match Phockup.process_xmp cfg σ filename target_file_name suffix output with
  | .error e => .error e
  | .ok (xmps, σ2) => .ok (.transferred target_file xmps, σ2)

/-- The `while True` collision loop of `Phockup.process_file` (phockup.py
lines 233-267), given the planned `output`, `target_file_name` and
`target_file_path`.  If the candidate exists, both checksums are compared
(the uncaught `open` of a vanished source propagates); equal digests are
a duplicate skip, different digests retry with the next numeric suffix
spliced into `target_file_path`.  If the candidate is free, the transfer
runs through `self.dry`; `FileNotFoundError` is caught — and the file
skipped — in the move and copy branches only.  The loop is unbounded in
Python; `fuel` bounds it here. -/
def Phockup.process_file_loop (cfg : Config) (env : Env) (σ : FS)
    (filename output target_file_name target_file_path : String) :
    Nat → String → Nat → Except PyErr (Outcome × FS)
  | 0, _, _ => .ok (.fuelOut, σ)
  | fuel + 1, target_file, suffix =>
    if σ.isfile target_file then
      -- `self.checksum(filename)` runs first; an exception there means the
      -- second checksum never runs.
      match Phockup.checksum env σ filename, Phockup.checksum env σ target_file with
      | .error e, _ => .error e
      | .ok _, .error e => .error e
      | .ok chcksum_filename, .ok chcksum_target_file =>
        if chcksum_filename = chcksum_target_file then
          .ok (.duplicate target_file, σ)
        else
          let suffix2 := suffix + 1
          let target_split := os_path_splitext target_file_path
          Phockup.process_file_loop cfg env σ filename output target_file_name target_file_path
            fuel (target_split.1 ++ "-" ++ Nat.repr suffix2 ++ target_split.2) suffix2
    else if cfg.move then
      if cfg.dry_run then
        Phockup.after_transfer cfg σ filename target_file_name suffix output target_file
      else
        match shutil_move σ filename target_file with
        | .error .fileNotFoundError => .ok (.skippedMissing, σ)
        | .error e => .error e
        | .ok σ2 =>
          Phockup.after_transfer cfg σ2 filename target_file_name suffix output target_file
    else if cfg.link then
      if cfg.dry_run then
        Phockup.after_transfer cfg σ filename target_file_name suffix output target_file
      else
        match os_link σ filename target_file with
        | .error e => .error e
        | .ok σ2 =>
          Phockup.after_transfer cfg σ2 filename target_file_name suffix output target_file
    else
      if cfg.dry_run then
        Phockup.after_transfer cfg σ filename target_file_name suffix output target_file
      else
        match shutil_copy2 σ filename target_file with
        | .error .fileNotFoundError => .ok (.skippedMissing, σ)
        | .error e => .error e
        | .ok σ2 =>
          Phockup.after_transfer cfg σ2 filename target_file_name suffix output target_file

/-- `Phockup.process_file` (phockup.py lines 221-267): `.xmp` sidecars are
skipped by the main loop; otherwise plan the target with
`get_file_name_and_path` and run the collision loop starting at the
planned path with suffix 1. -/
def Phockup.process_file (cfg : Config) (env : Env) (σ : FS) (fuel : Nat)
    (filename : String) : Except PyErr (Outcome × FS) :=
  if str_endswith filename ".xmp" then .ok (.skippedXmp, σ)
  else
    match Phockup.get_file_name_and_path cfg env σ filename with
    | .error e => .error e
    | .ok (output, target_file_name, target_file_path, σ1) =>
      Phockup.process_file_loop cfg env σ1 filename output target_file_name target_file_path
        fuel target_file_path 1

/-- The per-file loop of `Phockup.process` (phockup.py lines 68-75)
restricted to regular-file inputs: each path is fully processed, in order,
threading the filesystem; the outcome list is the run's decision log. -/
def Phockup.process_files (cfg : Config) (env : Env) (σ : FS) (fuel : Nat) :
    List String → Except PyErr (List Outcome × FS)
  | [] => .ok ([], σ)
  | f :: fs =>
    match Phockup.process_file cfg env σ fuel f with
    | .error e => .error e
    | .ok (o, σ2) =>
      match Phockup.process_files cfg env σ2 fuel fs with
      | .error e => .error e
      | .ok (outs, σ3) => .ok (o :: outs, σ3)

/-! ## Concrete fixtures -/

/-- Environment of a run where `exiftool` always exits non-zero (no
metadata), with the epoch as modification time, a `dateutil` that rejects
everything, and contents standing for their own digests (a legal
instantiation of the digest oracle on collision-free contents). -/
def envNoMeta : Env :=
  ⟨fun _ => .procError, fun _ => ⟨1970, 1, 1, 0, 0, 0, 0, none⟩, fun _ => none, fun c => c⟩

/-- Environment of a run where `exiftool` reports, for every file, a JPEG
image captured at 2017-01-01 01:01:01. -/
def envPhoto2017 : Env :=
  ⟨fun _ => .outputParsed
      [[("SourceFile", .str "in/photo.jpg"),
        ("CreateDate", .str "2017:01:01 01:01:01"),
        ("MIMEType", .str "image/jpeg")]],
   fun _ => ⟨1970, 1, 1, 0, 0, 0, 0, none⟩, fun _ => none, fun c => c⟩

/-- Copy mode, live run, rename disabled, no exclusions: the constructor
defaults of `Phockup.__init__` with output directory `out`. -/
def copyCfg : Config :=
  ⟨"out", "%Y/%m/%d", false, false, none, false, none, false, "unknown", [], [], none, none⟩

/-- `copyCfg` with `dry_run=True`. -/
def dryCfg : Config :=
  ⟨"out", "%Y/%m/%d", false, false, none, false, none, true, "unknown", [], [], none, none⟩

/-- `copyCfg` with `move=True`. -/
def moveCfg : Config :=
  ⟨"out", "%Y/%m/%d", true, false, none, false, none, false, "unknown", [], [], none, none⟩

/-- `copyCfg` with `link=True`. -/
def linkCfg : Config :=
  ⟨"out", "%Y/%m/%d", false, true, none, false, none, false, "unknown", [], [], none, none⟩

/-- `copyCfg` with `rename="%Y%m%d-%H%M%S"` (the format yielding
`YYYYMMDD-HHMMSS`). -/
def renameCfg : Config :=
  ⟨"out", "%Y/%m/%d", false, false, none, false, none, false, "unknown", [], [], none,
   some "%Y%m%d-%H%M%S"⟩

/-- The compiled default exclusion pattern `\.DS_Store`: the literal text
`.DS_Store`. -/
def dsStoreRegex : PyRegex :=
  [.lit '.', .lit 'D', .lit 'S', .lit '_', .lit 'S', .lit 't', .lit 'o', .lit 'r', .lit 'e']

/-- `copyCfg` with `exclude_regex=[r"\.DS_Store"]`. -/
def excludeCfg : Config :=
  ⟨"out", "%Y/%m/%d", false, false, none, false, none, false, "unknown", [dsStoreRegex], [],
   none, none⟩

/-- The capture datetime 2017-01-01 01:01:01. -/
def dt2017 : DateTime := ⟨2017, 1, 1, 1, 1, 1, 0, none⟩

/-! ## Claim C1 -/

/-- C1. End-to-end placement: the spec (and the repository's own test
`test_process_image_exif_date`) expects the pipeline over a file with
`CreateDate = "2017:01:01 01:01:01"` and an image MIME type, rename format
`%Y%m%d-%H%M%S`, output root `out` and directory format `%Y/%m/%d` to
produce `out/2017/01/01/20170101-010101.jpg`.  The resolver and formatter
do produce the expected components (first two conjuncts), but the glue in
`get_file_name_and_path` subscripts the plain `datetime` returned by
`Date.from_exif` as `date["date"]`, raising `TypeError`: the pipeline
never produces a path for any image or video input. -/
theorem c1_end_to_end_placement_bug :
    Date.from_exif envPhoto2017 (some "in/photo.jpg")
        [("SourceFile", .str "in/photo.jpg"),
         ("CreateDate", .str "2017:01:01 01:01:01"),
         ("MIMEType", .str "image/jpeg")] false none none = some dt2017
  ∧ strftime dt2017 "%Y%m%d-%H%M%S" ++ (os_path_splitext "in/photo.jpg").2
      = "20170101-010101.jpg"
  ∧ String.intercalate "/" ["out", strftime (DateTime.dateOnly dt2017) "%Y/%m/%d"]
      = "out/2017/01/01"
  ∧ Phockup.get_file_name_and_path renameCfg envPhoto2017 ⟨[("in/photo.jpg", "P")], []⟩
      "in/photo.jpg" = .error .typeError
  ∧ Phockup.process_file renameCfg envPhoto2017 ⟨[("in/photo.jpg", "P")], []⟩ 10
      "in/photo.jpg" = .error .typeError := by
  refine ⟨by decide, by decide, by decide, by decide, by decide⟩

/-! ## Claim C4 -/

/-- C4 counterexample: an invocation whose output is not well-formed JSON
does not yield an empty record — `json.loads` raises and `Exif.metadata`
propagates the exception, since the `except` clause lists only
`CalledProcessError` and `UnicodeDecodeError`. -/
theorem c4_malformed_json_raises :
    Exif.metadata .outputMalformed = .error .jsonDecodeError := by decide

/-- C4 amended: non-zero exit and byte-decoding failures yield an empty
record, but malformed JSON propagates `json.JSONDecodeError` and an empty
JSON array propagates `IndexError`; a well-formed singleton (or longer)
array yields its last object. -/
theorem c4_metadata_boundary :
    Exif.metadata .procError = .ok []
  ∧ Exif.metadata .decodeError = .ok []
  ∧ Exif.metadata .outputMalformed = .error .jsonDecodeError
  ∧ Exif.metadata (.outputParsed []) = .error .indexError
  ∧ ∀ objs o, objs.getLast? = some o → Exif.metadata (.outputParsed objs) = .ok o := by
  refine ⟨rfl, rfl, rfl, rfl, ?_⟩
  intro objs o h
  simp [Exif.metadata, h]

/-- Witness for the hypothesised conjunct of `c4_metadata_boundary` at the
one-object array. -/
theorem c4_metadata_boundary_witness :
    Exif.metadata (.outputParsed [[("MIMEType", .str "image/jpeg")]])
      = .ok [("MIMEType", .str "image/jpeg")] :=
  c4_metadata_boundary.2.2.2.2 [[("MIMEType", .str "image/jpeg")]]
    [("MIMEType", .str "image/jpeg")] (by decide)

/-! ## Claim C7 -/

/-- C7. `get_file_name` with rename disabled does return the original
basename for every date argument (first conjunct).  But with rename
enabled and an unknown date the documented behaviour ("unless it is
missing ... use original file name", and the repository test named
`test_get_file_name_is_original_on_exception`) is broken: the guard
`if not date and date.get("date") is None` is a conjunction where a
disjunction was intended, so a `{"date": None}` dict falls through to
`None.strftime(...)` and a `None` date evaluates `None.get(...)` — both
`AttributeError`s instead of the original basename. -/
theorem c7_get_file_name_unknown_date :
    (∀ cfg f d, cfg.rename = none →
        Phockup.get_file_name cfg f d = .ok (os_path_basename f))
  ∧ Phockup.get_file_name copyCfg "Bar/Foo.jpg" (some ⟨none, ""⟩) = .ok "Foo.jpg"
  ∧ Phockup.get_file_name renameCfg "Bar/Foo.jpg" (some ⟨none, ""⟩) = .error .attributeError
  ∧ Phockup.get_file_name renameCfg "Bar/Foo.jpg" none = .error .attributeError
  ∧ Phockup.get_file_name renameCfg "Bar/Foo.jpg" (some ⟨some dt2017, "20"⟩)
      = .ok "20170101-01010120.jpg" := by
  refine ⟨?_, by decide, by decide, by decide, by decide⟩
  intro cfg f d h
  simp [Phockup.get_file_name, h]

/-- Witness for the hypothesised conjunct of
`c7_get_file_name_unknown_date`: rename disabled at a concrete input. -/
theorem c7_get_file_name_unknown_date_witness :
    Phockup.get_file_name copyCfg "a/b.jpg" none = .ok "b.jpg" := by
  have h := c7_get_file_name_unknown_date.1 copyCfg "a/b.jpg" none (by decide)
  simpa using h

/-! ## Claim C5 -/

/-- C5 counterexample: in hard-link mode a source that no longer exists at
transfer time is fatal — `os.link` raises `FileNotFoundError` and, unlike
the move and copy branches, the link branch has no `try`/`except`, so the
exception propagates out of `process_file`. -/
theorem c5_link_mode_missing_source_fatal :
    Phockup.process_file_loop linkCfg envNoMeta ⟨[], []⟩ "gone.jpg" "out/unknown"
      "gone.jpg" "out/unknown/gone.jpg" 10 "out/unknown/gone.jpg" 1
      = .error .fileNotFoundError
  ∧ Phockup.process_file linkCfg envNoMeta ⟨[], []⟩ 10 "gone.jpg"
      = .error .fileNotFoundError := by
  exact ⟨by decide, by decide⟩

/-- C5 amended: a vanished source is reported as skipped (and the state
left unchanged) in copy mode and in move mode, whose transfer calls catch
`FileNotFoundError`; in hard-link mode the error is uncaught and
propagates. -/
theorem c5_missing_source_by_mode :
    (∀ cfg env σ fn out tn tp fuel tf sfx,
        cfg.dry_run = false → cfg.move = false → cfg.link = false →
        σ.isfile tf = false → σ.content fn = none →
        Phockup.process_file_loop cfg env σ fn out tn tp (fuel + 1) tf sfx
          = .ok (.skippedMissing, σ))
  ∧ (∀ cfg env σ fn out tn tp fuel tf sfx,
        cfg.dry_run = false → cfg.move = true →
        σ.isfile tf = false → σ.content fn = none →
        Phockup.process_file_loop cfg env σ fn out tn tp (fuel + 1) tf sfx
          = .ok (.skippedMissing, σ))
  ∧ (∀ cfg env σ fn out tn tp fuel tf sfx,
        cfg.dry_run = false → cfg.move = false → cfg.link = true →
        σ.isfile tf = false → σ.content fn = none →
        Phockup.process_file_loop cfg env σ fn out tn tp (fuel + 1) tf sfx
          = .error .fileNotFoundError) := by
  refine ⟨?_, ?_, ?_⟩ <;>
    intro cfg env σ fn out tn tp fuel sfx tf hdry hm1 <;>
    intros <;>
    simp_all [Phockup.process_file_loop, shutil_move, shutil_copy2, os_link]

/-- Witness for `c5_missing_source_by_mode`: concrete runs in the three
modes with an empty filesystem. -/
theorem c5_missing_source_by_mode_witness :
    Phockup.process_file_loop copyCfg envNoMeta ⟨[], []⟩ "gone.jpg" "out/unknown"
      "gone.jpg" "out/unknown/gone.jpg" 10 "out/unknown/gone.jpg" 1
      = .ok (.skippedMissing, ⟨[], []⟩)
  ∧ Phockup.process_file_loop moveCfg envNoMeta ⟨[], []⟩ "gone.jpg" "out/unknown"
      "gone.jpg" "out/unknown/gone.jpg" 10 "out/unknown/gone.jpg" 1
      = .ok (.skippedMissing, ⟨[], []⟩) :=
  ⟨c5_missing_source_by_mode.1 copyCfg envNoMeta ⟨[], []⟩ "gone.jpg" "out/unknown"
      "gone.jpg" "out/unknown/gone.jpg" 9 "out/unknown/gone.jpg" 1
      (by decide) (by decide) (by decide) (by decide) (by decide),
   c5_missing_source_by_mode.2.1 moveCfg envNoMeta ⟨[], []⟩ "gone.jpg" "out/unknown"
      "gone.jpg" "out/unknown/gone.jpg" 9 "out/unknown/gone.jpg" 1
      (by decide) (by decide) (by decide) (by decide)⟩

/-! ## Claim C2 -/

theorem FS.isfile_of_content {σ : FS} {p c : String} (h : σ.content p = some c) :
    σ.isfile p = true := by
  unfold FS.content dictGet at h
  unfold FS.isfile
  cases hf : σ.files.find? (fun q => q.1 = p) with
  | none => rw [hf] at h; simp at h
  | some q => simp [hf]

/-- C2. Collision resolution in `process_file`: an existing candidate with
the same SHA-256 digest is skipped as a duplicate, leaving the filesystem
untouched (no transfer, no suffixed copy); different digests move to the
next candidate, obtained by splicing the incremented numeric suffix in
front of the extension of the planned path; and concretely, three
same-named distinct files land at `f.txt`, `f-2.txt`, `f-3.txt` while a
fourth with duplicate content is skipped. -/
theorem c2_collision_resolution :
    (∀ cfg env σ fn out tn tp fuel tf sfx cf ctf,
        σ.content fn = some cf → σ.content tf = some ctf →
        env.sha256 cf = env.sha256 ctf →
        Phockup.process_file_loop cfg env σ fn out tn tp (fuel + 1) tf sfx
          = .ok (.duplicate tf, σ))
  ∧ (∀ cfg env σ fn out tn tp fuel tf sfx cf ctf,
        σ.content fn = some cf → σ.content tf = some ctf →
        env.sha256 cf ≠ env.sha256 ctf →
        Phockup.process_file_loop cfg env σ fn out tn tp (fuel + 1) tf sfx
          = Phockup.process_file_loop cfg env σ fn out tn tp fuel
              ((os_path_splitext tp).1 ++ "-" ++ Nat.repr (sfx + 1) ++
                (os_path_splitext tp).2) (sfx + 1))
  ∧ Phockup.process_files copyCfg envNoMeta
      ⟨[("in1/f.txt", "A"), ("in2/f.txt", "B"), ("in3/f.txt", "C"), ("in4/f.txt", "A")], []⟩
      10 ["in1/f.txt", "in2/f.txt", "in3/f.txt", "in4/f.txt"]
    = .ok ([.transferred "out/unknown/f.txt" [],
            .transferred "out/unknown/f-2.txt" [],
            .transferred "out/unknown/f-3.txt" [],
            .duplicate "out/unknown/f.txt"],
           ⟨[("in1/f.txt", "A"), ("in2/f.txt", "B"), ("in3/f.txt", "C"), ("in4/f.txt", "A"),
             ("out/unknown/f.txt", "A"), ("out/unknown/f-2.txt", "B"),
             ("out/unknown/f-3.txt", "C")],
            ["out/unknown"]⟩) := by
  refine ⟨?_, ?_, by decide⟩
  · intro cfg env σ fn out tn tp fuel tf sfx cf ctf h1 h2 h3
    have hf := FS.isfile_of_content h2
    simp only [Phockup.process_file_loop, hf, if_true, Phockup.checksum, h1, h2]
    simp [h3]
  · intro cfg env σ fn out tn tp fuel tf sfx cf ctf h1 h2 h3
    have hf := FS.isfile_of_content h2
    simp only [Phockup.process_file_loop, hf, if_true, Phockup.checksum, h1, h2]
    simp [h3]

/-- Witness for the hypothesised conjuncts of `c2_collision_resolution`:
a duplicate skip and a suffix step at concrete states. -/
theorem c2_collision_resolution_witness :
    Phockup.process_file_loop copyCfg envNoMeta ⟨[("s", "A"), ("t", "A")], []⟩ "s"
        "o" "t" "o/t.jpg" 5 "t" 1
      = .ok (.duplicate "t", ⟨[("s", "A"), ("t", "A")], []⟩)
  ∧ Phockup.process_file_loop copyCfg envNoMeta ⟨[("s", "A"), ("o/t.jpg", "B")], []⟩ "s"
        "o" "t.jpg" "o/t.jpg" 5 "o/t.jpg" 1
      = Phockup.process_file_loop copyCfg envNoMeta ⟨[("s", "A"), ("o/t.jpg", "B")], []⟩ "s"
        "o" "t.jpg" "o/t.jpg" 4 "o/t-2.jpg" 2 :=
  ⟨c2_collision_resolution.1 copyCfg envNoMeta ⟨[("s", "A"), ("t", "A")], []⟩ "s"
      "o" "t" "o/t.jpg" 4 "t" 1 "A" "A" (by decide) (by decide) (by decide),
   by
    have h := c2_collision_resolution.2.1 copyCfg envNoMeta
      ⟨[("s", "A"), ("o/t.jpg", "B")], []⟩ "s" "o" "t.jpg" "o/t.jpg" 4 "o/t.jpg" 1
      "A" "B" (by decide) (by decide) (by decide)
    simpa using h⟩

/-! ## Claim C3 -/

theorem mem_insertSorted {x a : String} {l : List String} :
    x ∈ insertSorted a l ↔ x = a ∨ x ∈ l := by
  induction l with
  | nil => simp [insertSorted]
  | cons y ys ih =>
    simp only [insertSorted]
    split
    · simp
    · simp only [List.mem_cons, ih]
      tauto

theorem mem_sortStrings {x : String} {l : List String} :
    x ∈ sortStrings l ↔ x ∈ l := by
  induction l with
  | nil => simp [sortStrings]
  | cons y ys ih =>
    show x ∈ insertSorted y (sortStrings ys) ↔ _
    rw [mem_insertSorted, ih]
    simp

/-- C3 counterexample: the walker's regex exclusion uses `re.match`
(anchored at the start of the filename), not `re.search`: with the
pattern `\.DS_Store` configured, the filename `photo.DS_Store` — which
contains a substring the regex matches — is still passed to
`process_file`, while the anchored `.DS_Store` is excluded. -/
theorem c3_match_not_search_counterexample :
    Phockup.walk_directory excludeCfg [("in", ["photo.DS_Store"])] = ["in/photo.DS_Store"]
  ∧ re_search dsStoreRegex "photo.DS_Store" = true
  ∧ re_match dsStoreRegex "photo.DS_Store" = false
  ∧ Phockup.walk_directory excludeCfg [("in", [".DS_Store"])] = [] := by
  refine ⟨by decide, by decide, by decide, by decide⟩

/-- C3 amended: the exclusion check uses `re.match` semantics — a file the
walker passes on to `process_file` is a file of some walked directory
whose name fails `file_excluded`; in particular no configured exclusion
regex matches at the start of its filename (a match strictly inside the
filename does not exclude it, as the counterexample shows). -/
theorem c3_exclusion_is_anchored :
    ∀ cfg walk p, p ∈ Phockup.walk_directory cfg walk →
    ∃ root files f, (root, files) ∈ walk ∧ f ∈ files ∧ p = root ++ "/" ++ f ∧
      Phockup.file_excluded cfg f = false ∧
      ∀ r ∈ cfg.exclude_regex, re_match r f = false := by
  intro cfg walk p hp
  induction walk with
  | nil => simp [Phockup.walk_directory] at hp
  | cons rf rest ih =>
    rw [Phockup.walk_directory, List.foldr_cons] at hp
    rcases List.mem_append.mp hp with h | h
    · rcases List.mem_map.mp h with ⟨f, hf, rfl⟩
      rcases List.mem_filter.mp hf with ⟨hfs, hex⟩
      have hex2 : Phockup.file_excluded cfg f = false := by
        simpa using hex
      refine ⟨rf.1, rf.2, f, List.mem_cons_self _ _, mem_sortStrings.mp hfs, rfl, hex2, ?_⟩
      intro r hr
      have h1 : cfg.exclude_regex.any (fun regex => re_match regex f) = false := by
        rcases Bool.or_eq_false_iff.mp hex2 with ⟨h1, _⟩
        exact Bool.or_eq_false_iff.mp h1 |>.1
      exact Bool.eq_false_iff.mpr (List.any_eq_false.mp h1 r hr)
    · rcases ih h with ⟨root, files, f, hmem, hrest⟩
      exact ⟨root, files, f, List.mem_cons_of_mem _ hmem, hrest⟩

/-- Witness for `c3_exclusion_is_anchored` at a concrete walk: the single
candidate `a.jpg` passes and no configured regex matches its start. -/
theorem c3_exclusion_is_anchored_witness :
    ∃ root files f, (root, files) ∈ [("in", ["a.jpg"])] ∧ f ∈ files ∧
      "in/a.jpg" = root ++ "/" ++ f ∧
      Phockup.file_excluded excludeCfg f = false ∧
      ∀ r ∈ excludeCfg.exclude_regex, re_match r f = false :=
  c3_exclusion_is_anchored excludeCfg [("in", ["a.jpg"])] "in/a.jpg" (by decide)

/-! ## Claim C6 -/

theorem Date.first_value_nil : ∀ ks, Date.first_value [] ks = none := by
  intro ks
  induction ks with
  | nil => rfl
  | cons k ks ih => simp [Date.first_value, dictGet, ih]

/-- C6 counterexample: a `"0000"`-prefixed value in the first-present field
is *not* resolved as if that field were absent from the mapping.  With
`SubSecCreateDate = "0000:00:00 00:00:00"` and a valid `CreateDate`, the
scan stops at the first present field and resolution falls through to the
(absent) filename — returning `None` — whereas on the mapping with the
zero field removed the valid `CreateDate` yields a metadata date. -/
theorem c6_zero_value_not_like_absent :
    Date.from_exif envNoMeta none
        [("SubSecCreateDate", .str "0000:00:00 00:00:00"),
         ("CreateDate", .str "2017:01:01 01:01:01")] false none none
      ≠ Date.from_exif envNoMeta none
        [("CreateDate", .str "2017:01:01 01:01:01")] false none none
  ∧ Date.from_exif envNoMeta none
      [("SubSecCreateDate", .str "0000:00:00 00:00:00"),
       ("CreateDate", .str "2017:01:01 01:01:01")] false none none = none
  ∧ Date.from_exif envNoMeta none
      [("CreateDate", .str "2017:01:01 01:01:01")] false none none = some dt2017 := by
  refine ⟨by decide, by decide, by decide⟩

/-- C6 amended: a first-present date field whose value begins with `"0000"`
never yields a metadata-sourced date, and resolution proceeds exactly as
if the metadata record were *empty* — falling through to filename-based,
modification-time or unknown resolution and skipping the remaining
lower-priority fields as well (which, as the counterexample shows, is not
the same as removing only that field). -/
theorem c6_zero_prefix_falls_through :
    ∀ env fn exif ts ur df s,
      Date.first_value exif (Date.date_keys df) = some (.str s) →
      str_startswith s "0000" = true →
      Date.from_exif env fn exif ts ur df = Date.from_exif env fn [] ts ur df := by
  intro env fn exif ts ur df s h1 h2
  simp only [Date.from_exif, h1, Date.first_value_nil]
  simp [h2]

/-- Witness for `c6_zero_prefix_falls_through`: an all-zero `CreateDate`
resolves exactly like the empty record. -/
theorem c6_zero_prefix_falls_through_witness :
    Date.from_exif envNoMeta (some "Foo.jpg")
        [("CreateDate", .str "0000:00:00 00:00:00")] false none none
      = Date.from_exif envNoMeta (some "Foo.jpg") [] false none none :=
  c6_zero_prefix_falls_through envNoMeta (some "Foo.jpg")
    [("CreateDate", .str "0000:00:00 00:00:00")] false none none
    "0000:00:00 00:00:00" (by decide) (by decide)

/-! ## Frame lemmas for the collision loop -/

theorem Phockup.after_transfer_outcome {cfg : Config} {σ : FS}
    {fn tn : String} {sfx : Nat} {out tf : String} {o : Outcome} {σ2 : FS}
    (h : Phockup.after_transfer cfg σ fn tn sfx out tf = .ok (o, σ2)) :
    ∃ xs, o = .transferred tf xs := by
  unfold Phockup.after_transfer at h
  split at h
  · cases h
  · simp only [Except.ok.injEq, Prod.mk.injEq] at h
    exact ⟨_, h.1.symm⟩

/-- A run of the collision loop that does not end in a transfer leaves the
filesystem exactly as it was: duplicate skips, missing-source skips and
fuel exhaustion have no effect. -/
theorem Phockup.process_file_loop_skip_frame (cfg : Config) (env : Env) (σ : FS)
    (fn out tn tp : String) :
    ∀ fuel tf sfx o σ2,
      Phockup.process_file_loop cfg env σ fn out tn tp fuel tf sfx = .ok (o, σ2) →
      (∀ t xs, o ≠ .transferred t xs) → σ2 = σ := by
  intro fuel
  induction fuel with
  | zero =>
    intro tf sfx o σ2 h hne
    rw [Phockup.process_file_loop] at h
    simp only [Except.ok.injEq, Prod.mk.injEq] at h
    exact h.2.symm
  | succ fuel ih =>
    intro tf sfx o σ2 h hne
    rw [Phockup.process_file_loop] at h
    repeat' split at h
    all_goals first
      | (cases h; try rfl)
      | (simp only [Except.ok.injEq, Prod.mk.injEq] at h; exact h.2.symm)
      | exact ih _ _ _ _ h hne
      | (rcases Phockup.after_transfer_outcome h with ⟨xs, rfl⟩; exact (hne _ _ rfl).elim)

/-! ## Claim C8 -/

/-- The filesystem of the sidecar scenarios: `in/photo.jpg` with both
companions `in/photo.jpg.xmp` and `in/photo.xmp`. -/
def sidecarFS : FS :=
  ⟨[("in/photo.jpg", "P"), ("in/photo.jpg.xmp", "Q"), ("in/photo.xmp", "R")], []⟩

/-- C8. Sidecar propagation.  First conjunct: after `photo.jpg` is copied
to `2017/01/01/20170101-010101.jpg` (suffix 1), the two companions land at
`20170101-010101.jpg.xmp` and `20170101-010101.xmp`.  Second: with a suffix
of 3 (two prior distinct collisions), the companions carry the same `-3`
suffix — `20170101-010101.jpg-3.xmp` and `20170101-010101-3.xmp` — always
with the literal `.xmp` extension.  Third: in move mode the same transfer
uses move for the sidecars too (the sources are gone).  Fourth and fifth:
a duplicate skip or a missing-source skip transfers no sidecar — the
filesystem is left exactly unchanged, so sidecars move only after a
successful non-duplicate primary transfer. -/
theorem c8_sidecar_propagation :
    Phockup.process_file_loop copyCfg envNoMeta sidecarFS "in/photo.jpg" "out/2017/01/01"
      "20170101-010101.jpg" "out/2017/01/01/20170101-010101.jpg" 10
      "out/2017/01/01/20170101-010101.jpg" 1
    = .ok (.transferred "out/2017/01/01/20170101-010101.jpg"
            [("in/photo.jpg.xmp", "out/2017/01/01/20170101-010101.jpg.xmp"),
             ("in/photo.xmp", "out/2017/01/01/20170101-010101.xmp")],
           ⟨[("in/photo.jpg", "P"), ("in/photo.jpg.xmp", "Q"), ("in/photo.xmp", "R"),
             ("out/2017/01/01/20170101-010101.jpg", "P"),
             ("out/2017/01/01/20170101-010101.jpg.xmp", "Q"),
             ("out/2017/01/01/20170101-010101.xmp", "R")], []⟩)
  ∧ Phockup.process_file_loop copyCfg envNoMeta
      ⟨sidecarFS.files ++
        [("out/2017/01/01/20170101-010101.jpg", "X"),
         ("out/2017/01/01/20170101-010101-2.jpg", "Y")], []⟩
      "in/photo.jpg" "out/2017/01/01"
      "20170101-010101.jpg" "out/2017/01/01/20170101-010101.jpg" 10
      "out/2017/01/01/20170101-010101.jpg" 1
    = .ok (.transferred "out/2017/01/01/20170101-010101-3.jpg"
            [("in/photo.jpg.xmp", "out/2017/01/01/20170101-010101.jpg-3.xmp"),
             ("in/photo.xmp", "out/2017/01/01/20170101-010101-3.xmp")],
           ⟨[("in/photo.jpg", "P"), ("in/photo.jpg.xmp", "Q"), ("in/photo.xmp", "R"),
             ("out/2017/01/01/20170101-010101.jpg", "X"),
             ("out/2017/01/01/20170101-010101-2.jpg", "Y"),
             ("out/2017/01/01/20170101-010101-3.jpg", "P"),
             ("out/2017/01/01/20170101-010101.jpg-3.xmp", "Q"),
             ("out/2017/01/01/20170101-010101-3.xmp", "R")], []⟩)
  ∧ Phockup.process_file_loop moveCfg envNoMeta sidecarFS "in/photo.jpg" "out/2017/01/01"
      "20170101-010101.jpg" "out/2017/01/01/20170101-010101.jpg" 10
      "out/2017/01/01/20170101-010101.jpg" 1
    = .ok (.transferred "out/2017/01/01/20170101-010101.jpg"
            [("in/photo.jpg.xmp", "out/2017/01/01/20170101-010101.jpg.xmp"),
             ("in/photo.xmp", "out/2017/01/01/20170101-010101.xmp")],
           ⟨[("out/2017/01/01/20170101-010101.jpg", "P"),
             ("out/2017/01/01/20170101-010101.jpg.xmp", "Q"),
             ("out/2017/01/01/20170101-010101.xmp", "R")], []⟩)
  ∧ (∀ cfg env σ fn out tn tp fuel tf sfx t σ2,
        Phockup.process_file_loop cfg env σ fn out tn tp fuel tf sfx
          = .ok (.duplicate t, σ2) → σ2 = σ)
  ∧ (∀ cfg env σ fn out tn tp fuel tf sfx σ2,
        Phockup.process_file_loop cfg env σ fn out tn tp fuel tf sfx
          = .ok (.skippedMissing, σ2) → σ2 = σ) := by
  refine ⟨by decide, by decide, by decide, ?_, ?_⟩
  · intro cfg env σ fn out tn tp fuel tf sfx t σ2 h
    exact Phockup.process_file_loop_skip_frame cfg env σ fn out tn tp fuel tf sfx _ σ2 h
      (by intro t2 xs hne; cases hne)
  · intro cfg env σ fn out tn tp fuel tf sfx σ2 h
    exact Phockup.process_file_loop_skip_frame cfg env σ fn out tn tp fuel tf sfx _ σ2 h
      (by intro t2 xs hne; cases hne)

/-- Witness for the hypothesised conjuncts of `c8_sidecar_propagation`:
a concrete duplicate skip and a concrete missing-source skip leave the
state untouched (no sidecar is copied although both are present). -/
theorem c8_sidecar_propagation_witness :
    (⟨[("in/photo.jpg", "P"), ("in/photo.jpg.xmp", "Q"), ("in/photo.xmp", "R"),
       ("out/2017/01/01/20170101-010101.jpg", "P")], []⟩ : FS)
      = ⟨[("in/photo.jpg", "P"), ("in/photo.jpg.xmp", "Q"), ("in/photo.xmp", "R"),
          ("out/2017/01/01/20170101-010101.jpg", "P")], []⟩
  ∧ (⟨[("in/gone.jpg.xmp", "Q")], []⟩ : FS) = ⟨[("in/gone.jpg.xmp", "Q")], []⟩ :=
  ⟨c8_sidecar_propagation.2.2.2.1 copyCfg envNoMeta
      ⟨[("in/photo.jpg", "P"), ("in/photo.jpg.xmp", "Q"), ("in/photo.xmp", "R"),
        ("out/2017/01/01/20170101-010101.jpg", "P")], []⟩
      "in/photo.jpg" "out/2017/01/01" "20170101-010101.jpg"
      "out/2017/01/01/20170101-010101.jpg" 10 "out/2017/01/01/20170101-010101.jpg" 1
      "out/2017/01/01/20170101-010101.jpg" _ (by decide),
   c8_sidecar_propagation.2.2.2.2 copyCfg envNoMeta ⟨[("in/gone.jpg.xmp", "Q")], []⟩
      "in/gone.jpg" "out/unknown" "gone.jpg" "out/unknown/gone.jpg" 10
      "out/unknown/gone.jpg" 1 _ (by decide)⟩

/-! ## Dry-run frame lemmas -/

theorem Phockup.get_output_dir_dry {cfg : Config} (σ : FS) (d : Option DateTime)
    (hdry : cfg.dry_run = true) : (Phockup.get_output_dir cfg σ d).2 = σ := by
  unfold Phockup.get_output_dir
  simp [hdry]

theorem Phockup.get_file_name_and_path_dry {cfg : Config} {env : Env} {σ : FS}
    {filename : String} {r : String × String × String × FS}
    (hdry : cfg.dry_run = true)
    (h : Phockup.get_file_name_and_path cfg env σ filename = .ok r) :
    r.2.2.2 = σ := by
  unfold Phockup.get_file_name_and_path at h
  repeat' split at h
  all_goals cases h
  all_goals exact Phockup.get_output_dir_dry σ none hdry

theorem Phockup.xmp_transfer_list_dry {cfg : Config} (output : String)
    (hdry : cfg.dry_run = true) :
    ∀ (l : List (String × String)) (σ : FS) (r : List (String × String) × FS),
      Phockup.xmp_transfer_list cfg output σ l = .ok r → r.2 = σ := by
  intro l
  induction l with
  | nil =>
    intro σ r h
    cases h
    rfl
  | cons p rest ih =>
    intro σ r h
    rw [Phockup.xmp_transfer_list] at h
    simp only [hdry, if_true] at h
    split at h
    · cases h
    · cases h
      rename_i acc σ3 heq
      exact ih σ (acc, σ3) heq

theorem Phockup.process_xmp_dry {cfg : Config} {σ : FS}
    {fn tn : String} {sfx : Nat} {out : String} {r : List (String × String) × FS}
    (hdry : cfg.dry_run = true)
    (h : Phockup.process_xmp cfg σ fn tn sfx out = .ok r) : r.2 = σ := by
  unfold Phockup.process_xmp at h
  exact Phockup.xmp_transfer_list_dry out hdry _ σ r h

theorem Phockup.after_transfer_dry {cfg : Config} {σ : FS}
    {fn tn : String} {sfx : Nat} {out tf : String} {o : Outcome} {σ2 : FS}
    (hdry : cfg.dry_run = true)
    (h : Phockup.after_transfer cfg σ fn tn sfx out tf = .ok (o, σ2)) : σ2 = σ := by
  unfold Phockup.after_transfer at h
  split at h
  · cases h
  · cases h
    rename_i xmps σ3 heq
    exact Phockup.process_xmp_dry hdry heq

theorem Phockup.process_file_loop_dry {cfg : Config} (env : Env) (σ : FS)
    (fn out tn tp : String) (hdry : cfg.dry_run = true) :
    ∀ fuel tf sfx o σ2,
      Phockup.process_file_loop cfg env σ fn out tn tp fuel tf sfx = .ok (o, σ2) →
      σ2 = σ := by
  intro fuel
  induction fuel with
  | zero =>
    intro tf sfx o σ2 h
    rw [Phockup.process_file_loop] at h
    simp only [Except.ok.injEq, Prod.mk.injEq] at h
    exact h.2.symm
  | succ fuel ih =>
    intro tf sfx o σ2 h
    rw [Phockup.process_file_loop] at h
    simp only [hdry, if_true] at h
    repeat' split at h
    all_goals first
      | (cases h; try rfl)
      | (simp only [Except.ok.injEq, Prod.mk.injEq] at h; exact h.2.symm)
      | exact ih _ _ _ _ h
      | exact Phockup.after_transfer_dry hdry h

theorem Phockup.process_file_dry {cfg : Config} {env : Env} {σ : FS}
    {fuel : Nat} {filename : String} {o : Outcome} {σ2 : FS}
    (hdry : cfg.dry_run = true)
    (h : Phockup.process_file cfg env σ fuel filename = .ok (o, σ2)) : σ2 = σ := by
  unfold Phockup.process_file at h
  split at h
  · cases h
    rfl
  · split at h
    · cases h
    · rename_i out2 tn2 tp2 σ1 heq
      have h1 : σ1 = σ := Phockup.get_file_name_and_path_dry hdry heq
      have h2 : σ2 = σ1 :=
        Phockup.process_file_loop_dry env σ1 filename out2 tn2 tp2 hdry fuel tp2 1 o σ2 h
      rw [h2, h1]

theorem Phockup.process_files_dry {cfg : Config} (env : Env) (hdry : cfg.dry_run = true) :
    ∀ (files : List String) (σ : FS) (fuel : Nat) (outs : List Outcome) (σ2 : FS),
      Phockup.process_files cfg env σ fuel files = .ok (outs, σ2) → σ2 = σ := by
  intro files
  induction files with
  | nil =>
    intro σ fuel outs σ2 h
    cases h
    rfl
  | cons f fs ih =>
    intro σ fuel outs σ2 h
    rw [Phockup.process_files] at h
    split at h
    · cases h
    · rename_i o σa heq1
      split at h
      · cases h
      · rename_i outs2 σb heq2
        cases h
        exact (ih σa fuel outs2 _ heq2).trans (Phockup.process_file_dry hdry heq1)

/-! ## Claim C9 -/

/-- C9 counterexample: a dry run does not reach the same
duplicate/collision decisions as a live run.  Two same-named inputs with
identical content: live, the first is transferred and the second is
detected as a duplicate of the freshly created target; dry, no target is
ever created, so both are decided (and logged) as transfers. -/
theorem c9_dry_decisions_differ :
    Phockup.process_files dryCfg envNoMeta ⟨[("in1/f.txt", "X"), ("in2/f.txt", "X")], []⟩
        10 ["in1/f.txt", "in2/f.txt"]
      = .ok ([.transferred "out/unknown/f.txt" [], .transferred "out/unknown/f.txt" []],
             ⟨[("in1/f.txt", "X"), ("in2/f.txt", "X")], []⟩)
  ∧ Phockup.process_files copyCfg envNoMeta ⟨[("in1/f.txt", "X"), ("in2/f.txt", "X")], []⟩
        10 ["in1/f.txt", "in2/f.txt"]
      = .ok ([.transferred "out/unknown/f.txt" [], .duplicate "out/unknown/f.txt"],
             ⟨[("in1/f.txt", "X"), ("in2/f.txt", "X"), ("out/unknown/f.txt", "X")],
              ["out/unknown"]⟩)
  ∧ ([Outcome.transferred "out/unknown/f.txt" [], Outcome.transferred "out/unknown/f.txt" []]
      ≠ [Outcome.transferred "out/unknown/f.txt" [], Outcome.duplicate "out/unknown/f.txt"]) := by
  refine ⟨by decide, by decide, by decide⟩

/-- C9 amended: with `dry_run` set, every planning, collision-detection and
hash-comparison step runs against the *pre-existing* filesystem with all
side-effect calls suppressed, and the filesystem — directories included —
is left entirely unchanged by processing any input set.  The decisions can
differ from a live run's exactly when a live transfer earlier in the run
would have created a colliding target (see the counterexample). -/
theorem c9_dry_run_frame :
    ∀ (cfg : Config) (env : Env) (σ : FS) (fuel : Nat) (files : List String)
      (outs : List Outcome) (σ2 : FS),
      cfg.dry_run = true →
      Phockup.process_files cfg env σ fuel files = .ok (outs, σ2) →
      σ2 = σ := by
  intro cfg env σ fuel files outs σ2 hdry h
  exact Phockup.process_files_dry env hdry files σ fuel outs σ2 h

/-- Witness for `c9_dry_run_frame`: the dry run of the counterexample's
input set leaves its two-file filesystem untouched. -/
theorem c9_dry_run_frame_witness :
    (⟨[("in1/f.txt", "X"), ("in2/f.txt", "X")], []⟩ : FS)
      = ⟨[("in1/f.txt", "X"), ("in2/f.txt", "X")], []⟩ :=
  c9_dry_run_frame dryCfg envNoMeta ⟨[("in1/f.txt", "X"), ("in2/f.txt", "X")], []⟩
    10 ["in1/f.txt", "in2/f.txt"]
    [.transferred "out/unknown/f.txt" [], .transferred "out/unknown/f.txt" []]
    ⟨[("in1/f.txt", "X"), ("in2/f.txt", "X")], []⟩ (by decide) (by decide)

/-! ## Claim C10 -/

theorem Phockup.get_output_dir_none_fst (cfg : Config) (σ : FS) :
    (Phockup.get_output_dir cfg σ none).1
      = String.intercalate "/" [cfg.output_dir, cfg.default_dir_name] := by
  simp only [Phockup.get_output_dir]
  split
  · rfl
  · split <;> rfl

/-- A configuration with the timestamp fallback enabled and a date regex
configured (used to witness that MIME gating ignores both). -/
def tsRegexCfg : Config :=
  ⟨"out", "%Y/%m/%d", false, false, some (fun _ => none), true, none, false, "unknown",
   [], [], none, none⟩

/-- C10. MIME-type gating: whenever the extracted metadata record is empty,
lacks a `MIMEType` field, or carries a string `MIMEType` that
`is_image_or_video` rejects, `get_file_name_and_path` takes the
default-bucket branch: the target directory is
`output_dir/default_dir_name`, the target name is the original basename,
and the full path joins the two — date resolution (filename-based,
modification-time, or regex) is never consulted, whatever the `timestamp`,
`date_regex` and `date_field` configuration (the conclusion does not
depend on them). -/
theorem c10_mime_gating_default_bucket :
    ∀ (cfg : Config) (env : Env) (σ : FS) (filename : String) (m : ExifRecord),
      Exif.metadata (env.exifInvoke filename) = .ok m →
      (dictGet m "MIMEType" = none ∨
        ∃ s, dictGet m "MIMEType" = some (.str s) ∧ Phockup.is_image_or_video s = false) →
      Phockup.get_file_name_and_path cfg env σ filename
          = .ok (Phockup.plan_default cfg σ filename)
        ∧ (Phockup.plan_default cfg σ filename).1
            = String.intercalate "/" [cfg.output_dir, cfg.default_dir_name]
        ∧ (Phockup.plan_default cfg σ filename).2.1 = os_path_basename filename
        ∧ (Phockup.plan_default cfg σ filename).2.2.1
            = String.intercalate "/"
                [(Phockup.plan_default cfg σ filename).1, os_path_basename filename] := by
  intro cfg env σ filename m h1 h2
  refine ⟨?_, Phockup.get_output_dir_none_fst cfg σ, rfl, rfl⟩
  unfold Phockup.get_file_name_and_path
  rw [h1]
  rcases h2 with h | ⟨s, hs, hiv⟩
  · simp [h]
  · simp [hs, hiv]

/-- Witness for `c10_mime_gating_default_bucket`: a file with no metadata
under a configuration with timestamp fallback and a date regex still lands
at `out/unknown/other.txt`. -/
theorem c10_mime_gating_default_bucket_witness :
    Phockup.get_file_name_and_path tsRegexCfg envNoMeta ⟨[("in/other.txt", "T")], []⟩
        "in/other.txt"
      = .ok (Phockup.plan_default tsRegexCfg ⟨[("in/other.txt", "T")], []⟩ "in/other.txt")
  ∧ (Phockup.plan_default tsRegexCfg ⟨[("in/other.txt", "T")], []⟩ "in/other.txt").2.2.1
      = "out/unknown/other.txt" :=
  ⟨(c10_mime_gating_default_bucket tsRegexCfg envNoMeta ⟨[("in/other.txt", "T")], []⟩
      "in/other.txt" [] (by decide) (Or.inl (by decide))).1,
   by decide⟩
